import Mathlib

/-!
Verification of the Medicate-3d gesture pipeline.

The gesture classifier and per-frame signal integrator live in
`src/components/3d/HandGestureController.tsx` (`detectGesture`, `onResults`);
the render-tick control application lives in `src/components/3d/Viewer.tsx`
(`animate`, `onMouseMove`).  Landmark coordinates are normalized scalars,
modelled as `ℚ`; the smoothed zoom involves `Real.sqrt`, so it is modelled
as `ℝ`.  Finger-extension and pinch tests in the source compare Euclidean
(`Math.hypot`) distances; here they are embedded as decidable rational
tests on squared distances, with bridge lemmas (`extendedb_iff`,
`pinchClose_iff`) proving them equivalent to the source's real-valued
comparisons.
-/

namespace Medicate

/-- A single 2-d landmark point (the source ignores `z` in every test). -/
structure Pt where
  x : ℚ
  y : ℚ
deriving DecidableEq

/-- The 21 hand landmarks produced per detected hand per frame. -/
abbrev Landmarks := Fin 21 → Pt

/-- Squared Euclidean distance between two points. -/
def dist2 (p q : Pt) : ℚ := (p.x - q.x) ^ 2 + (p.y - q.y) ^ 2

/-- Euclidean distance, as computed by `Math.hypot` in the source. -/
noncomputable def distR (p q : Pt) : ℝ := Real.sqrt ((dist2 p q : ℚ) : ℝ)

/-- `Math.hypot(tip - wrist) > Math.hypot(knuckle - wrist) + 0.05`, embedded
as an equivalent decidable test on squared distances (see `extendedb_iff`). -/
def extendedb (w t k : Pt) : Bool :=
  decide (dist2 w k + (0.05 : ℚ) ^ 2 < dist2 w t) &&
  decide (4 * (0.05 : ℚ) ^ 2 * dist2 w k <
    (dist2 w t - dist2 w k - (0.05 : ℚ) ^ 2) ^ 2)

/-- `thumbExtended` from `detectGesture` (wrist 0, thumb tip 4, knuckle 2). -/
def thumbExtended (l : Landmarks) : Bool := extendedb (l 0) (l 4) (l 2)

/-- `indexExtended` from `detectGesture` (tip 8, knuckle 5). -/
def indexExtended (l : Landmarks) : Bool := extendedb (l 0) (l 8) (l 5)

/-- `middleExtended` from `detectGesture` (tip 12, knuckle 9). -/
def middleExtended (l : Landmarks) : Bool := extendedb (l 0) (l 12) (l 9)

/-- `ringExtended` from `detectGesture` (tip 16, knuckle 13). -/
def ringExtended (l : Landmarks) : Bool := extendedb (l 0) (l 16) (l 13)

/-- `pinkyExtended` from `detectGesture` (tip 20, knuckle 17). -/
def pinkyExtended (l : Landmarks) : Bool := extendedb (l 0) (l 20) (l 17)

/-- `[indexExtended, middleExtended, ringExtended, pinkyExtended].filter(Boolean).length`. -/
def extendedCount (l : Landmarks) : ℕ :=
  ([indexExtended l, middleExtended l, ringExtended l, pinkyExtended l].filter
    (fun b => b)).length

/-- Squared pinch distance: thumb tip (4) to index tip (8). -/
def pinchDist2 (l : Landmarks) : ℚ := dist2 (l 4) (l 8)

/-- `pinchDistance < 0.06`, embedded on squared distances (see `pinchClose_iff`). -/
def pinchClose (l : Landmarks) : Bool := decide (pinchDist2 l < (0.06 : ℚ) ^ 2)

/-- The display-mode union type `'normal' | 'dissection' | 'pathology'`. -/
inductive Mode
  | normal
  | dissection
  | pathology
deriving DecidableEq

/-- Return type of `detectGesture`: `{ name: string; mode: Mode }`. -/
structure Gesture where
  name : String
  mode : Mode
deriving DecidableEq

/-- The name string returned for the pinch gesture. -/
def pinchName : String := "\uf8ff\u00fc\u00a7\u00e8 Pinch - Zoom Active"

/-- The name string returned for the open-hand / dissection gesture. -/
def openHandName : String := "\u201a\u00fa\u00e3 Open Hand - Dissection Mode"

/-- The name string returned for the fist / normal gesture. -/
def fistName : String := "\u201a\u00fa\u00e4 Fist - Normal Mode"

/-- The name string returned for the peace-sign / pathology gesture. -/
def peaceName : String := "\u201a\u00fa\u00e5\u00d4\u220f\u00e8 Peace Sign - Pathology Mode"

/-- The name string returned for the open-palm rotate gesture. -/
def openPalmName : String := "\uf8ff\u00fc\u00f1\u00ea\u00d4\u220f\u00e8 Open Palm - Rotate Model"

/-- The name string returned for the pointing rotate gesture. -/
def pointingName : String := "\uf8ff\u00fc\u00eb\u00dc Pointing - Rotate Model"

/-- The name string returned when no rule matches. -/
def unclearName : String := "Show a clear gesture"

/-- JavaScript `String.prototype.includes`, on the underlying character lists. -/
def strIncludes (s pat : String) : Bool := decide (List.IsInfix pat.data s.data)

/-- `detectGesture(landmarks)` from HandGestureController.tsx: the ordered
guard chain, where `gestureMode` is the sticky mode captured from state. -/
def detectGesture (l : Landmarks) (gestureMode : Mode) : Gesture :=
  if pinchClose l && !middleExtended l && !ringExtended l && !pinkyExtended l then
    { name := pinchName, mode := gestureMode }
  else if extendedCount l == 4 && thumbExtended l then
    { name := openHandName, mode := Mode.dissection }
  else if extendedCount l == 0 && !thumbExtended l then
    { name := fistName, mode := Mode.normal }
  else if indexExtended l && middleExtended l && !ringExtended l &&
      !pinkyExtended l && !thumbExtended l then
    { name := peaceName, mode := Mode.pathology }
  else if 3 ≤ extendedCount l then
    { name := openPalmName, mode := gestureMode }
  else if indexExtended l && !middleExtended l && !ringExtended l &&
      !pinkyExtended l then
    { name := pointingName, mode := gestureMode }
  else
    { name := unclearName, mode := gestureMode }

/-- The emitted control value `{ rotationX, rotationY, zoom, mode }`. -/
structure GestureControls where
  rotationX : ℚ
  rotationY : ℚ
  zoom : ℝ
  mode : Mode

/-- The interpreter's rolling state: `rotationRef`, `zoomRef`,
`lastHandPosRef`, and the sticky `gestureMode` React state. -/
structure InterpState where
  rotX : ℚ
  rotY : ℚ
  zoom : ℝ
  lastHandPos : Option Pt
  gestureMode : Mode

/-- Initial interpreter state: rotation `(0,0)`, zoom `1`, no stored palm
position, mode `normal`. -/
noncomputable def initState : InterpState :=
  { rotX := 0, rotY := 0, zoom := 1, lastHandPos := none, gestureMode := Mode.normal }

/-- `Math.max(0.3, Math.min(2.5, 1 / (distance * 15)))` from the pinch branch. -/
noncomputable def zoomTarget (d : ℝ) : ℝ := max 0.3 (min 2.5 (1 / (d * 15)))

/-- `zoomRef.current * 0.95 + 1.0 * 0.05`, the non-pinch zoom relaxation. -/
noncomputable def zoomDecay (z : ℝ) : ℝ := z * 0.95 + 1.0 * 0.05

/-- One invocation of `onResults`: the landmark-processing branch (hand
detected) and the no-hand branch, returning the new state and the value
passed to `onGestureChange` (if any). -/
noncomputable def onResults (s : InterpState) (hand : Option Landmarks) :
    InterpState × Option GestureControls :=
  match hand with
  | none => ({ s with lastHandPos := none }, none)
  | some l =>
    let gesture := detectGesture l s.gestureMode
    let palmCenter := l 9
    let rot :=
      match s.lastHandPos with
      | some p =>
        if strIncludes gesture.name "Rotate" || strIncludes gesture.name "Pointing" then
          (s.rotX - (palmCenter.y - p.y) * 10, s.rotY + (palmCenter.x - p.x) * 10)
        else (s.rotX, s.rotY)
      | none => (s.rotX, s.rotY)
    let zoom2 :=
      if strIncludes gesture.name "Pinch" then
        zoomTarget (distR (l 4) (l 8))
      else zoomDecay s.zoom
    ({ rotX := rot.1, rotY := rot.2, zoom := zoom2,
       lastHandPos := some palmCenter, gestureMode := gesture.mode },
     some { rotationX := rot.1, rotationY := rot.2, zoom := zoom2,
            mode := gesture.mode })

/-- Run a sequence of frames through `onResults` starting from `initState`. -/
noncomputable def runFrames (frames : List (Option Landmarks)) : InterpState :=
  frames.foldl (fun s f => (onResults s f).1) initState

/-- Mesh transform state in the Viewer: `rotation.x/.y` and `scale`. -/
structure MeshState where
  rotX : ℚ
  rotY : ℚ
  scaleX : ℝ
  scaleY : ℝ
  scaleZ : ℝ

/-- One render tick of `animate` from Viewer.tsx: apply the gesture signal
absolutely when enabled and present, otherwise auto-rotate when neither
gesture mode nor dragging is active. -/
noncomputable def animate (gestureEnabled : Bool) (gestureControls : Option GestureControls)
    (selectedOrgan : String) (isDragging : Bool) (m : MeshState) : MeshState :=
  match gestureEnabled, gestureControls with
  | true, some c =>
    let scale := c.zoom
    if selectedOrgan = "brain" then
      { m with rotX := c.rotationX, rotY := c.rotationY,
               scaleX := 0.1 * scale, scaleY := 0.1 * scale, scaleZ := 0.1 * scale }
    else
      { m with rotX := c.rotationX, rotY := c.rotationY,
               scaleX := 1000 * scale, scaleY := 1000 * scale, scaleZ := 1000 * scale }
  | _, _ =>
    if !gestureEnabled && !isDragging then { m with rotY := m.rotY + 0.005 }
    else m

/-- `onMouseMove` from Viewer.tsx, with the pointer delta passed in:
guarded out entirely while gesture control is enabled or not dragging. -/
def onMouseMove (gestureEnabled isDragging : Bool) (dx dy : ℚ) (m : MeshState) : MeshState :=
  if gestureEnabled || !isDragging then m
  else { m with rotY := m.rotY + dx * 0.01, rotX := m.rotX + dy * 0.01 }

/-! ### Bridge lemmas: the rational squared-distance tests embed the
source's real-valued `Math.hypot` comparisons exactly. -/

theorem dist2_nonneg (p q : Pt) : 0 ≤ dist2 p q := by
  unfold dist2
  positivity

theorem sqrt_margin_iff (A B m : ℝ) (hA : 0 ≤ A) (hB : 0 ≤ B) (hm : 0 < m) :
    Real.sqrt B + m < Real.sqrt A ↔
      B + m ^ 2 < A ∧ 4 * m ^ 2 * B < (A - B - m ^ 2) ^ 2 := by
  have hx : 0 ≤ Real.sqrt A := Real.sqrt_nonneg A
  have hy : 0 ≤ Real.sqrt B := Real.sqrt_nonneg B
  have hx2 : Real.sqrt A ^ 2 = A := Real.sq_sqrt hA
  have hy2 : Real.sqrt B ^ 2 = B := Real.sq_sqrt hB
  set x := Real.sqrt A
  set y := Real.sqrt B
  rw [← hx2, ← hy2]
  constructor
  · intro h
    have h4 : (y + m) ^ 2 < x ^ 2 := pow_lt_pow_left₀ h (by positivity) two_ne_zero
    have h5 : 2 * m * y < x ^ 2 - y ^ 2 - m ^ 2 := by nlinarith
    have h6 : (2 * m * y) ^ 2 < (x ^ 2 - y ^ 2 - m ^ 2) ^ 2 :=
      pow_lt_pow_left₀ h5 (by positivity) two_ne_zero
    constructor
    · nlinarith
    · nlinarith
  · rintro ⟨h1, h2⟩
    have hD : 0 < x ^ 2 - y ^ 2 - m ^ 2 := by linarith
    have h3 : 2 * m * y < x ^ 2 - y ^ 2 - m ^ 2 := by
      refine lt_of_pow_lt_pow_left₀ 2 hD.le ?_
      nlinarith
    have h4 : (y + m) ^ 2 < x ^ 2 := by nlinarith
    exact lt_of_pow_lt_pow_left₀ 2 hx h4

theorem extendedb_iff (w t k : Pt) :
    extendedb w t k = true ↔ distR w k + 0.05 < distR w t := by
  unfold extendedb
  rw [Bool.and_eq_true, decide_eq_true_eq, decide_eq_true_eq]
  have hA : (0 : ℝ) ≤ ((dist2 w t : ℚ) : ℝ) := by exact_mod_cast dist2_nonneg w t
  have hB : (0 : ℝ) ≤ ((dist2 w k : ℚ) : ℝ) := by exact_mod_cast dist2_nonneg w k
  have key := sqrt_margin_iff ((dist2 w t : ℚ) : ℝ) ((dist2 w k : ℚ) : ℝ)
    (((1 / 20 : ℚ) : ℝ)) hA hB (by norm_num)
  unfold distR
  rw [show (0.05 : ℝ) = ((1 / 20 : ℚ) : ℝ) by norm_num, key,
    show (0.05 : ℚ) = 1 / 20 by norm_num]
  constructor
  · rintro ⟨h1, h2⟩
    exact ⟨by exact_mod_cast h1, by exact_mod_cast h2⟩
  · rintro ⟨h1, h2⟩
    exact ⟨by exact_mod_cast h1, by exact_mod_cast h2⟩

theorem pinchClose_iff (l : Landmarks) :
    pinchClose l = true ↔ distR (l 4) (l 8) < 0.06 := by
  unfold pinchClose pinchDist2 distR
  rw [decide_eq_true_eq, show (0.06 : ℝ) = ((3 / 50 : ℚ) : ℝ) by norm_num,
    Real.sqrt_lt' (by norm_num : (0 : ℝ) < ((3 / 50 : ℚ) : ℝ)),
    show (0.06 : ℚ) = 3 / 50 by norm_num]
  constructor
  · intro h
    exact_mod_cast h
  · intro h
    exact_mod_cast h

/-! ### Spec-side classifier, written from the specification's words,
to be compared with the source-side `detectGesture`. -/

/-- Spec wording: a finger counts as extended iff its wrist-to-tip
Euclidean distance exceeds its wrist-to-knuckle distance by the 0.05
margin. -/
def extendedSpec (l : Landmarks) (tip knuckle : Fin 21) : Prop :=
  distR (l 0) (l knuckle) + 0.05 < distR (l 0) (l tip)

open Classical in
/-- Spec wording: `extendedCount` counts only the extended non-thumb
fingers (index, middle, ring, pinky). -/
noncomputable def countSpec (l : Landmarks) : ℕ :=
  (if extendedSpec l 8 5 then 1 else 0) + (if extendedSpec l 12 9 then 1 else 0) +
  (if extendedSpec l 16 13 then 1 else 0) + (if extendedSpec l 20 17 then 1 else 0)

open Classical in
/-- The classifier as the spec states it: the fixed priority chain, first
match wins, over real Euclidean distances. -/
noncomputable def classifySpec (l : Landmarks) (sticky : Mode) : Gesture :=
  if distR (l 4) (l 8) < 0.06 ∧ ¬extendedSpec l 12 9 ∧ ¬extendedSpec l 16 13 ∧
      ¬extendedSpec l 20 17 then
    { name := pinchName, mode := sticky }
  else if countSpec l = 4 ∧ extendedSpec l 4 2 then
    { name := openHandName, mode := Mode.dissection }
  else if countSpec l = 0 ∧ ¬extendedSpec l 4 2 then
    { name := fistName, mode := Mode.normal }
  else if extendedSpec l 8 5 ∧ extendedSpec l 12 9 ∧ ¬extendedSpec l 16 13 ∧
      ¬extendedSpec l 20 17 ∧ ¬extendedSpec l 4 2 then
    { name := peaceName, mode := Mode.pathology }
  else if 3 ≤ countSpec l then
    { name := openPalmName, mode := sticky }
  else if extendedSpec l 8 5 ∧ ¬extendedSpec l 12 9 ∧ ¬extendedSpec l 16 13 ∧
      ¬extendedSpec l 20 17 then
    { name := pointingName, mode := sticky }
  else
    { name := unclearName, mode := sticky }

theorem thumbExtended_iff (l : Landmarks) :
    thumbExtended l = true ↔ extendedSpec l 4 2 :=
  extendedb_iff (l 0) (l 4) (l 2)

theorem indexExtended_iff (l : Landmarks) :
    indexExtended l = true ↔ extendedSpec l 8 5 :=
  extendedb_iff (l 0) (l 8) (l 5)

theorem middleExtended_iff (l : Landmarks) :
    middleExtended l = true ↔ extendedSpec l 12 9 :=
  extendedb_iff (l 0) (l 12) (l 9)

theorem ringExtended_iff (l : Landmarks) :
    ringExtended l = true ↔ extendedSpec l 16 13 :=
  extendedb_iff (l 0) (l 16) (l 13)

theorem pinkyExtended_iff (l : Landmarks) :
    pinkyExtended l = true ↔ extendedSpec l 20 17 :=
  extendedb_iff (l 0) (l 20) (l 17)

/-- C1: For every Landmarks21 input and every prior sticky mode, `detectGesture`
returns the first matching rule of the fixed priority chain stated by the spec:
Pinch, Dissection, Normal, Pathology, Rotate-palm, Rotate-point, Unrecognized,
with extendedness defined by the wrist-distance margin rule and `extendedCount`
counting only extended non-thumb fingers. -/
theorem detectGesture_eq_classifySpec (l : Landmarks) (m : Mode) :
    detectGesture l m = classifySpec l m := by
  have hT := thumbExtended_iff l
  have hI := indexExtended_iff l
  have hM := middleExtended_iff l
  have hR := ringExtended_iff l
  have hP := pinkyExtended_iff l
  have hPin := pinchClose_iff l
  rcases Bool.eq_false_or_eq_true (thumbExtended l) with bT | bT <;>
  rcases Bool.eq_false_or_eq_true (indexExtended l) with bI | bI <;>
  rcases Bool.eq_false_or_eq_true (middleExtended l) with bM | bM <;>
  rcases Bool.eq_false_or_eq_true (ringExtended l) with bR | bR <;>
  rcases Bool.eq_false_or_eq_true (pinkyExtended l) with bP | bP <;>
  rcases Bool.eq_false_or_eq_true (pinchClose l) with bPin | bPin <;>
    simp_all [detectGesture, classifySpec, countSpec, extendedCount] <;>
    rw [if_neg (not_lt.mpr hPin)]

/-! ### Concrete landmark configurations used as test inputs -/

/-- A degenerate fist: every landmark at the origin, so no finger is
extended and the pinch distance is 0. -/
def fistPinchL : Landmarks := fun _ => ⟨0, 0⟩

/-- A fist whose thumb tip is far from the index tip (pinch distance 1/2),
with no finger extended. -/
def fistFar : Landmarks := fun i =>
  if i = 4 then ⟨1/2, 0⟩ else if i = 2 then ⟨3/5, 0⟩ else ⟨0, 0⟩

/-- An open palm: index, middle, ring and pinky extended, thumb not
extended, pinch distance well above the threshold. -/
def openPalmL : Landmarks := fun i =>
  if i = 5 then ⟨1/10, 0⟩ else if i = 8 then ⟨1/5, 0⟩
  else if i = 9 then ⟨0, 1/10⟩ else if i = 12 then ⟨0, 1/5⟩
  else if i = 13 then ⟨-(1/10), 0⟩ else if i = 16 then ⟨-(1/5), 0⟩
  else if i = 17 then ⟨0, -(1/10)⟩ else if i = 20 then ⟨0, -(1/5)⟩
  else if i = 2 then ⟨1/10, 1/10⟩ else if i = 4 then ⟨1/10, 1/10⟩
  else ⟨0, 0⟩

/-- The spec's pinch scenario: thumb tip (0.50, 0.50), index tip
(0.52, 0.50), every other landmark retracted to (0.50, 0.50); the pinch
distance is 0.02. -/
def pinchL : Landmarks := fun i =>
  if i = 8 then ⟨13/25, 1/2⟩ else ⟨1/2, 1/2⟩

theorem fistPinchL_bools :
    thumbExtended fistPinchL = false ∧ indexExtended fistPinchL = false ∧
    middleExtended fistPinchL = false ∧ ringExtended fistPinchL = false ∧
    pinkyExtended fistPinchL = false ∧ pinchClose fistPinchL = true := by
  refine ⟨?_, ?_, ?_, ?_, ?_, ?_⟩ <;>
  norm_num [thumbExtended, indexExtended, middleExtended, ringExtended,
    pinkyExtended, pinchClose, pinchDist2, extendedb, dist2, fistPinchL]

theorem fistFar_bools :
    thumbExtended fistFar = false ∧ indexExtended fistFar = false ∧
    middleExtended fistFar = false ∧ ringExtended fistFar = false ∧
    pinkyExtended fistFar = false ∧ pinchClose fistFar = false := by
  refine ⟨?_, ?_, ?_, ?_, ?_, ?_⟩ <;>
  norm_num [thumbExtended, indexExtended, middleExtended, ringExtended,
    pinkyExtended, pinchClose, pinchDist2, extendedb, dist2,
    show fistFar 0 = ⟨0, 0⟩ from rfl, show fistFar 2 = ⟨3/5, 0⟩ from rfl,
    show fistFar 4 = ⟨1/2, 0⟩ from rfl, show fistFar 5 = ⟨0, 0⟩ from rfl,
    show fistFar 8 = ⟨0, 0⟩ from rfl, show fistFar 9 = ⟨0, 0⟩ from rfl,
    show fistFar 12 = ⟨0, 0⟩ from rfl, show fistFar 13 = ⟨0, 0⟩ from rfl,
    show fistFar 16 = ⟨0, 0⟩ from rfl, show fistFar 17 = ⟨0, 0⟩ from rfl,
    show fistFar 20 = ⟨0, 0⟩ from rfl]

theorem openPalmL_bools :
    thumbExtended openPalmL = false ∧ indexExtended openPalmL = true ∧
    middleExtended openPalmL = true ∧ ringExtended openPalmL = true ∧
    pinkyExtended openPalmL = true ∧ pinchClose openPalmL = false := by
  refine ⟨?_, ?_, ?_, ?_, ?_, ?_⟩ <;>
  norm_num [thumbExtended, indexExtended, middleExtended, ringExtended,
    pinkyExtended, pinchClose, pinchDist2, extendedb, dist2,
    show openPalmL 0 = ⟨0, 0⟩ from rfl, show openPalmL 2 = ⟨1/10, 1/10⟩ from rfl,
    show openPalmL 4 = ⟨1/10, 1/10⟩ from rfl, show openPalmL 5 = ⟨1/10, 0⟩ from rfl,
    show openPalmL 8 = ⟨1/5, 0⟩ from rfl, show openPalmL 9 = ⟨0, 1/10⟩ from rfl,
    show openPalmL 12 = ⟨0, 1/5⟩ from rfl, show openPalmL 13 = ⟨-(1/10), 0⟩ from rfl,
    show openPalmL 16 = ⟨-(1/5), 0⟩ from rfl, show openPalmL 17 = ⟨0, -(1/10)⟩ from rfl,
    show openPalmL 20 = ⟨0, -(1/5)⟩ from rfl]

theorem pinchL_bools :
    thumbExtended pinchL = false ∧ indexExtended pinchL = false ∧
    middleExtended pinchL = false ∧ ringExtended pinchL = false ∧
    pinkyExtended pinchL = false ∧ pinchClose pinchL = true := by
  refine ⟨?_, ?_, ?_, ?_, ?_, ?_⟩ <;>
  norm_num [thumbExtended, indexExtended, middleExtended, ringExtended,
    pinkyExtended, pinchClose, pinchDist2, extendedb, dist2,
    show pinchL 0 = ⟨1/2, 1/2⟩ from rfl, show pinchL 2 = ⟨1/2, 1/2⟩ from rfl,
    show pinchL 4 = ⟨1/2, 1/2⟩ from rfl, show pinchL 5 = ⟨1/2, 1/2⟩ from rfl,
    show pinchL 8 = ⟨13/25, 1/2⟩ from rfl, show pinchL 9 = ⟨1/2, 1/2⟩ from rfl,
    show pinchL 12 = ⟨1/2, 1/2⟩ from rfl, show pinchL 13 = ⟨1/2, 1/2⟩ from rfl,
    show pinchL 16 = ⟨1/2, 1/2⟩ from rfl, show pinchL 17 = ⟨1/2, 1/2⟩ from rfl,
    show pinchL 20 = ⟨1/2, 1/2⟩ from rfl]

theorem fistPinchL_gesture (m : Mode) :
    detectGesture fistPinchL m = { name := pinchName, mode := m } := by
  obtain ⟨hT, hI, hM, hR, hP, hPin⟩ := fistPinchL_bools
  simp [detectGesture, hT, hI, hM, hR, hP, hPin]

theorem fistFar_gesture (m : Mode) :
    detectGesture fistFar m = { name := fistName, mode := Mode.normal } := by
  obtain ⟨hT, hI, hM, hR, hP, hPin⟩ := fistFar_bools
  simp [detectGesture, extendedCount, hT, hI, hM, hR, hP, hPin]

theorem openPalmL_gesture (m : Mode) :
    detectGesture openPalmL m = { name := openPalmName, mode := m } := by
  obtain ⟨hT, hI, hM, hR, hP, hPin⟩ := openPalmL_bools
  simp [detectGesture, extendedCount, hT, hI, hM, hR, hP, hPin]

theorem pinchL_gesture (m : Mode) :
    detectGesture pinchL m = { name := pinchName, mode := m } := by
  obtain ⟨hT, hI, hM, hR, hP, hPin⟩ := pinchL_bools
  simp [detectGesture, hT, hI, hM, hR, hP, hPin]

theorem pinchL_distR_lt : distR (pinchL 4) (pinchL 8) < 0.06 :=
  (pinchClose_iff pinchL).mp pinchL_bools.2.2.2.2.2

theorem fistFar_distR_ge : ¬ distR (fistFar 4) (fistFar 8) < 0.06 := fun hlt => by
  have h := (pinchClose_iff fistFar).mpr hlt
  rw [fistFar_bools.2.2.2.2.2] at h
  exact Bool.false_ne_true h

/-! ### Helper lemmas about the classifier output -/

theorem detectGesture_name_cases (l : Landmarks) (m : Mode) :
    (detectGesture l m).name = pinchName ∨ (detectGesture l m).name = openHandName ∨
    (detectGesture l m).name = fistName ∨ (detectGesture l m).name = peaceName ∨
    (detectGesture l m).name = openPalmName ∨ (detectGesture l m).name = pointingName ∨
    (detectGesture l m).name = unclearName := by
  unfold detectGesture
  split_ifs <;> simp

theorem extendedCount_zero (l : Landmarks) (h0 : extendedCount l = 0) :
    indexExtended l = false ∧ middleExtended l = false ∧
    ringExtended l = false ∧ pinkyExtended l = false := by
  rcases Bool.eq_false_or_eq_true (indexExtended l) with hI | hI <;>
  rcases Bool.eq_false_or_eq_true (middleExtended l) with hM | hM <;>
  rcases Bool.eq_false_or_eq_true (ringExtended l) with hR | hR <;>
  rcases Bool.eq_false_or_eq_true (pinkyExtended l) with hP | hP <;>
    simp_all [extendedCount]

/-- Interpreter state with a stored palm position at the origin. -/
noncomputable def s0 : InterpState :=
  { rotX := 0, rotY := 0, zoom := 1, lastHandPos := some ⟨0, 0⟩,
    gestureMode := Mode.normal }

/-- Interpreter state with zoom 2 and a stored palm position. -/
noncomputable def s2 : InterpState :=
  { rotX := 0, rotY := 0, zoom := 2, lastHandPos := some ⟨0, 0⟩,
    gestureMode := Mode.normal }

/-! ### C2 -/

/-- C2 counterexample: a fist (extendedCount 0, thumb not extended) whose
thumb tip and index tip coincide classifies as Pinch, not FistNormal, and
the reported mode stays at the prior sticky mode (dissection), not normal. -/
theorem C2_counterexample :
    extendedCount fistPinchL = 0 ∧ thumbExtended fistPinchL = false ∧
    detectGesture fistPinchL Mode.dissection =
      { name := pinchName, mode := Mode.dissection } ∧
    detectGesture fistPinchL Mode.dissection ≠
      { name := fistName, mode := Mode.normal } := by
  obtain ⟨hT, hI, hM, hR, hP, _⟩ := fistPinchL_bools
  refine ⟨by simp [extendedCount, hI, hM, hR, hP], hT,
    fistPinchL_gesture Mode.dissection, ?_⟩
  rw [fistPinchL_gesture Mode.dissection]
  decide

/-- C2 (amended): for every Landmarks21 input in which extendedCount == 0,
the thumb is not extended, and additionally the thumb-tip-to-index-tip
distance is not below 0.06 (so the earlier Pinch rule cannot fire), the
classification is FistNormal and the mode becomes normal regardless of the
prior sticky mode. -/
theorem C2_amended (l : Landmarks) (m : Mode)
    (h0 : extendedCount l = 0) (hT : thumbExtended l = false)
    (hp : ¬ distR (l 4) (l 8) < 0.06) :
    detectGesture l m = { name := fistName, mode := Mode.normal } := by
  have hpin : pinchClose l = false := by
    rcases Bool.eq_false_or_eq_true (pinchClose l) with h | h
    · exact absurd ((pinchClose_iff l).mp h) hp
    · exact h
  obtain ⟨hI, hM, hR, hP⟩ := extendedCount_zero l h0
  simp [detectGesture, extendedCount, hpin, hI, hM, hR, hP, hT]

/-- C2 witness: the far-thumb fist discharges the amended hypotheses. -/
theorem C2_amended_witness :
    extendedCount fistFar = 0 ∧ thumbExtended fistFar = false ∧
    ¬ distR (fistFar 4) (fistFar 8) < 0.06 ∧
    detectGesture fistFar Mode.pathology =
      { name := fistName, mode := Mode.normal } := by
  obtain ⟨hT, hI, hM, hR, hP, _⟩ := fistFar_bools
  have h0 : extendedCount fistFar = 0 := by simp [extendedCount, hI, hM, hR, hP]
  exact ⟨h0, hT, fistFar_distR_ge,
    C2_amended fistFar Mode.pathology h0 hT fistFar_distR_ge⟩

/-! ### C3 -/

/-- C3 counterexample: an invocation with no hand detected emits nothing,
so it is not the case that every invocation produces a ControlSignal. -/
theorem C3_counterexample : (onResults initState none).2 = none := rfl

/-- C3 (amended): a ControlSignal {rotationX, rotationY, zoom, mode} drawn
from the updated interpreter state is emitted on every hand-detected
invocation; an invocation with no hand detected emits nothing. -/
theorem C3_amended (s : InterpState) (l : Landmarks) :
    (∃ c : GestureControls,
        (onResults s (some l)).2 = some c ∧
        c.rotationX = (onResults s (some l)).1.rotX ∧
        c.rotationY = (onResults s (some l)).1.rotY ∧
        c.zoom = (onResults s (some l)).1.zoom ∧
        c.mode = (onResults s (some l)).1.gestureMode) ∧
    (onResults s none).2 = none :=
  ⟨⟨_, rfl, rfl, rfl, rfl, rfl⟩, rfl⟩

/-! ### C5 -/

/-- C5: on a hand-detected frame the palm position (landmark 9) is always
stored; the palm delta turns into rotation exactly on the rotate-capable
classifications (`accumulatedRotation.y += delta.x * 10`,
`accumulatedRotation.x -= delta.y * 10`); any other classification leaves
the accumulated rotation unchanged; and with no stored previous palm
position no rotation is added. -/
theorem C5_rotation (s : InterpState) (l : Landmarks) (p : Pt) :
    ((onResults s (some l)).1.lastHandPos = some (l 9)) ∧
    (s.lastHandPos = some p →
      (strIncludes (detectGesture l s.gestureMode).name "Rotate" ||
       strIncludes (detectGesture l s.gestureMode).name "Pointing") = true →
      (onResults s (some l)).1.rotY = s.rotY + ((l 9).x - p.x) * 10 ∧
      (onResults s (some l)).1.rotX = s.rotX - ((l 9).y - p.y) * 10) ∧
    ((strIncludes (detectGesture l s.gestureMode).name "Rotate" ||
      strIncludes (detectGesture l s.gestureMode).name "Pointing") = false →
      (onResults s (some l)).1.rotX = s.rotX ∧
      (onResults s (some l)).1.rotY = s.rotY) ∧
    (s.lastHandPos = none →
      (onResults s (some l)).1.rotX = s.rotX ∧
      (onResults s (some l)).1.rotY = s.rotY) := by
  refine ⟨?_, ?_, ?_, ?_⟩
  · cases h : s.lastHandPos <;> simp [onResults, h]
  · intro hprev hrot
    simp [onResults, hprev, hrot]
  · intro hrot
    cases h : s.lastHandPos <;> simp [onResults, h, hrot]
  · intro hprev
    simp [onResults, hprev]

/-- C5 witness: the open-palm configuration with a stored palm position. -/
theorem C5_witness :
    s0.lastHandPos = some ⟨0, 0⟩ ∧
    (strIncludes (detectGesture openPalmL s0.gestureMode).name "Rotate" ||
     strIncludes (detectGesture openPalmL s0.gestureMode).name "Pointing") = true ∧
    ((onResults s0 (some openPalmL)).1.rotY =
        s0.rotY + ((openPalmL 9).x - (Pt.mk 0 0).x) * 10 ∧
     (onResults s0 (some openPalmL)).1.rotX =
        s0.rotX - ((openPalmL 9).y - (Pt.mk 0 0).y) * 10) := by
  have h1 : s0.lastHandPos = some ⟨0, 0⟩ := rfl
  have h2 : (strIncludes (detectGesture openPalmL s0.gestureMode).name "Rotate" ||
      strIncludes (detectGesture openPalmL s0.gestureMode).name "Pointing") = true := by
    rw [show s0.gestureMode = Mode.normal from rfl, openPalmL_gesture]
    decide
  exact ⟨h1, h2, (C5_rotation s0 openPalmL ⟨0, 0⟩).2.1 h1 h2⟩

/-! ### C6 -/

/-- C6 counterexample: on a no-hand frame the zoom does not decay one step
toward 1.0 — starting from zoom 2 it stays exactly 2, while the claimed
decay step would give 2 * 0.95 + 1.0 * 0.05 = 1.95 ≠ 2. -/
theorem C6_counterexample :
    (onResults s2 none).1.zoom = 2 ∧ (2 : ℝ) ≠ 2 * 0.95 + 1.0 * 0.05 := by
  refine ⟨rfl, ?_⟩
  norm_num

/-- C6 (amended): on a frame with no hand detected, lastPalmPosition is
cleared and everything else — accumulated rotation, sticky mode, and the
smoothed zoom — is left unchanged (the zoom decay step is not applied on
no-hand frames), and nothing is emitted. -/
theorem C6_amended (s : InterpState) :
    onResults s none = ({ s with lastHandPos := none }, none) := rfl

/-! ### C4 -/

/-- C4: whenever the classification is Pinch, `onResults` sets the
smoothed zoom to `clamp(1/(distance*15), 0.3, 2.5)` of the
thumb-tip-to-index-tip distance; for every distance `d ≥ 0` (including
`d = 0`) the clamp lands in `[0.3, 2.5]`; and distance 0.02 yields
exactly 2.5. -/
theorem C4_zoom (s : InterpState) (l : Landmarks) (d : ℝ)
    (h : (detectGesture l s.gestureMode).name = pinchName) (_hd : 0 ≤ d) :
    (onResults s (some l)).1.zoom = zoomTarget (distR (l 4) (l 8)) ∧
    0.3 ≤ zoomTarget d ∧ zoomTarget d ≤ 2.5 ∧
    zoomTarget 0.02 = 2.5 := by
  refine ⟨?_, ?_, ?_, ?_⟩
  · have hs : strIncludes (detectGesture l s.gestureMode).name "Pinch" = true := by
      rw [h]; decide
    simp [onResults, hs]
  · exact le_max_left _ _
  · exact max_le (by norm_num) (min_le_left _ _)
  · unfold zoomTarget
    rw [show (1 : ℝ) / (0.02 * 15) = 10 / 3 by norm_num,
      min_eq_left (by norm_num), max_eq_right (by norm_num)]

/-- C4 witness: the spec's pinch scenario, together with the limit
distance `d = 0`. -/
theorem C4_witness :
    (detectGesture pinchL s0.gestureMode).name = pinchName ∧ (0 : ℝ) ≤ 0 ∧
    ((onResults s0 (some pinchL)).1.zoom = zoomTarget (distR (pinchL 4) (pinchL 8)) ∧
     0.3 ≤ zoomTarget 0 ∧ zoomTarget 0 ≤ 2.5 ∧
     zoomTarget 0.02 = 2.5) := by
  have h : (detectGesture pinchL s0.gestureMode).name = pinchName := by
    rw [show s0.gestureMode = Mode.normal from rfl, pinchL_gesture]
  exact ⟨h, le_refl 0, C4_zoom s0 pinchL 0 h (le_refl 0)⟩

/-! ### C7 -/

theorem zoomDecay_iter (n : ℕ) (z : ℝ) :
    zoomDecay^[n] z - 1 = 0.95 ^ n * (z - 1) := by
  induction n with
  | zero => simp
  | succ k ih =>
    rw [Function.iterate_succ_apply', pow_succ]
    have hstep : zoomDecay (zoomDecay^[k] z) = zoomDecay^[k] z * 0.95 + 1.0 * 0.05 := rfl
    have ih2 : zoomDecay^[k] z = 0.95 ^ k * (z - 1) + 1 := by linarith
    rw [hstep, ih2]
    ring

theorem strIncludes_pinch_false (l : Landmarks) (m : Mode)
    (h : (detectGesture l m).name ≠ pinchName) :
    strIncludes (detectGesture l m).name "Pinch" = false := by
  rcases detectGesture_name_cases l m with h1 | h1 | h1 | h1 | h1 | h1 | h1
  · exact absurd h1 h
  all_goals (rw [h1]; decide)

/-- C7 counterexample: starting at 2.5 (inside the claimed range), after 90
decay frames the zoom is still more than 0.01 away from 1.0. -/
theorem C7_counterexample :
    (0.3 : ℝ) ≤ 2.5 ∧ (2.5 : ℝ) ≤ 2.5 ∧
    ¬ |zoomDecay^[90] (2.5 : ℝ) - 1| ≤ 0.01 := by
  refine ⟨by norm_num, le_refl _, ?_⟩
  rw [zoomDecay_iter, show (2.5 : ℝ) - 1 = 1.5 by norm_num,
    abs_of_pos (by positivity)]
  norm_num

/-- C7 (amended): on hand frames that do not classify as Pinch the zoom is
replaced by `zoom*0.95 + 1.0*0.05`; for every starting value in
`[0.3, 2.5]` the resulting sequence moves strictly monotonically toward
1.0 (fixed once equal to 1.0) and is within 0.01 of 1.0 after 98 frames
(90 frames do not suffice from the top of the range). -/
theorem C7_amended (s : InterpState) (l : Landmarks) (z : ℝ)
    (hg : (detectGesture l s.gestureMode).name ≠ pinchName)
    (hz1 : 0.3 ≤ z) (hz2 : z ≤ 2.5) :
    (onResults s (some l)).1.zoom = s.zoom * 0.95 + 1.0 * 0.05 ∧
    (z < 1 → z < zoomDecay z ∧ zoomDecay z < 1) ∧
    (z = 1 → zoomDecay z = 1) ∧
    (1 < z → zoomDecay z < z ∧ 1 < zoomDecay z) ∧
    |zoomDecay^[98] z - 1| ≤ 0.01 := by
  refine ⟨?_, ?_, ?_, ?_, ?_⟩
  · have hs := strIncludes_pinch_false l s.gestureMode hg
    simp [onResults, hs, zoomDecay]
  · intro h
    unfold zoomDecay
    constructor <;> linarith
  · intro h
    rw [h]
    unfold zoomDecay
    norm_num
  · intro h
    unfold zoomDecay
    constructor <;> linarith
  · rw [zoomDecay_iter, abs_mul, abs_of_pos (by positivity : (0 : ℝ) < 0.95 ^ 98)]
    have habs : |z - 1| ≤ 1.5 := abs_le.mpr ⟨by linarith, by linarith⟩
    calc (0.95 : ℝ) ^ 98 * |z - 1| ≤ 0.95 ^ 98 * 1.5 :=
          mul_le_mul_of_nonneg_left habs (by positivity)
      _ ≤ 0.01 := by norm_num

/-- C7 witness: the open-palm (non-Pinch) frame and starting zoom 2.5. -/
theorem C7_witness :
    (detectGesture openPalmL s0.gestureMode).name ≠ pinchName ∧
    (0.3 : ℝ) ≤ 2.5 ∧ (2.5 : ℝ) ≤ 2.5 ∧
    ((onResults s0 (some openPalmL)).1.zoom = s0.zoom * 0.95 + 1.0 * 0.05 ∧
     ((2.5 : ℝ) < 1 → (2.5 : ℝ) < zoomDecay 2.5 ∧ zoomDecay 2.5 < 1) ∧
     ((2.5 : ℝ) = 1 → zoomDecay 2.5 = 1) ∧
     ((1 : ℝ) < 2.5 → zoomDecay 2.5 < 2.5 ∧ 1 < zoomDecay 2.5) ∧
     |zoomDecay^[98] (2.5 : ℝ) - 1| ≤ 0.01) := by
  have hg : (detectGesture openPalmL s0.gestureMode).name ≠ pinchName := by
    rw [show s0.gestureMode = Mode.normal from rfl, openPalmL_gesture]
    decide
  exact ⟨hg, by norm_num, le_refl _,
    C7_amended s0 openPalmL 2.5 hg (by norm_num) (le_refl _)⟩

/-! ### C8 -/

/-- C8: the interpreter's mode is always one of the three canonical modes;
on a hand frame it becomes exactly the classification's mode, on a no-hand
frame it is unchanged; sticky classifications (Pinch, Rotate-palm,
Rotate-point, Unrecognized) report the prior sticky mode unchanged; and
every input with pinch distance < 0.06 and middle/ring/pinky retracted
classifies as Pinch carrying the prior sticky mode. -/
theorem C8_mode (s : InterpState) (l : Landmarks) (m : Mode) :
    ((onResults s (some l)).1.gestureMode = Mode.normal ∨
     (onResults s (some l)).1.gestureMode = Mode.dissection ∨
     (onResults s (some l)).1.gestureMode = Mode.pathology) ∧
    (onResults s (some l)).1.gestureMode = (detectGesture l s.gestureMode).mode ∧
    (onResults s none).1.gestureMode = s.gestureMode ∧
    (((detectGesture l m).name = pinchName ∨ (detectGesture l m).name = openPalmName ∨
      (detectGesture l m).name = pointingName ∨ (detectGesture l m).name = unclearName) →
      (detectGesture l m).mode = m) ∧
    (distR (l 4) (l 8) < 0.06 → middleExtended l = false → ringExtended l = false →
      pinkyExtended l = false →
      detectGesture l m = { name := pinchName, mode := m }) := by
  refine ⟨?_, rfl, rfl, ?_, ?_⟩
  · cases h : (onResults s (some l)).1.gestureMode
    · exact Or.inl rfl
    · exact Or.inr (Or.inl rfl)
    · exact Or.inr (Or.inr rfl)
  · intro hn
    unfold detectGesture at hn ⊢
    split_ifs at hn ⊢ <;> first
      | rfl
      | exact absurd hn (by decide)
  · intro h1 h2 h3 h4
    have hp : pinchClose l = true := (pinchClose_iff l).mpr h1
    simp [detectGesture, hp, h2, h3, h4]

/-- C8 witness: the pinch scenario against a dissection sticky mode. -/
theorem C8_witness :
    distR (pinchL 4) (pinchL 8) < 0.06 ∧ middleExtended pinchL = false ∧
    ringExtended pinchL = false ∧ pinkyExtended pinchL = false ∧
    detectGesture pinchL Mode.dissection =
      { name := pinchName, mode := Mode.dissection } ∧
    (detectGesture pinchL Mode.dissection).mode = Mode.dissection := by
  obtain ⟨hT, hI, hM, hR, hP, hpin⟩ := pinchL_bools
  have h5 := (C8_mode s0 pinchL Mode.dissection).2.2.2.2 pinchL_distR_lt hM hR hP
  have h4 := (C8_mode s0 pinchL Mode.dissection).2.2.2.1 (Or.inl (by rw [h5]))
  exact ⟨pinchL_distR_lt, hM, hR, hP, h5, h4⟩

/-! ### C9 -/

/-- A concrete control signal for the render-tick witness. -/
noncomputable def c0 : GestureControls :=
  { rotationX := 1, rotationY := 2, zoom := 1, mode := Mode.normal }

/-- A concrete mesh state for the render-tick witness. -/
noncomputable def m0 : MeshState :=
  { rotX := 0, rotY := 0, scaleX := 1, scaleY := 1, scaleZ := 1 }

/-- C9: while gesture mode is enabled and a ControlSignal is present, the
render tick sets the mesh orientation absolutely to the signal's rotation
(no auto-rotation increment is mixed in), sets the scale uniformly to the
per-asset base scale (1000 for heart, 0.1 for brain) times the signal's
zoom, and pointer-drag deltas are never applied while enabled. -/
theorem C9_render (c : GestureControls) (organ : String) (dragging : Bool)
    (m : MeshState) (dx dy : ℚ) :
    (animate true (some c) organ dragging m).rotX = c.rotationX ∧
    (animate true (some c) organ dragging m).rotY = c.rotationY ∧
    (organ = "heart" →
      (animate true (some c) organ dragging m).scaleX = 1000 * c.zoom ∧
      (animate true (some c) organ dragging m).scaleY = 1000 * c.zoom ∧
      (animate true (some c) organ dragging m).scaleZ = 1000 * c.zoom) ∧
    (organ = "brain" →
      (animate true (some c) organ dragging m).scaleX = 0.1 * c.zoom ∧
      (animate true (some c) organ dragging m).scaleY = 0.1 * c.zoom ∧
      (animate true (some c) organ dragging m).scaleZ = 0.1 * c.zoom) ∧
    onMouseMove true dragging dx dy m = m := by
  refine ⟨?_, ?_, ?_, ?_, rfl⟩
  · rcases eq_or_ne organ "brain" with h | h <;> simp [animate, h]
  · rcases eq_or_ne organ "brain" with h | h <;> simp [animate, h]
  · intro h
    subst h
    simp [animate]
  · intro h
    subst h
    simp [animate]

/-- C9 witness: both assets at a concrete signal and mesh state. -/
theorem C9_witness :
    ("heart" : String) = "heart" ∧ ("brain" : String) = "brain" ∧
    ((animate true (some c0) "heart" false m0).scaleX = 1000 * c0.zoom ∧
     (animate true (some c0) "heart" false m0).scaleY = 1000 * c0.zoom ∧
     (animate true (some c0) "heart" false m0).scaleZ = 1000 * c0.zoom) ∧
    ((animate true (some c0) "brain" false m0).scaleX = 0.1 * c0.zoom ∧
     (animate true (some c0) "brain" false m0).scaleY = 0.1 * c0.zoom ∧
     (animate true (some c0) "brain" false m0).scaleZ = 0.1 * c0.zoom) :=
  ⟨rfl, rfl, (C9_render c0 "heart" false m0 0 0).2.2.1 rfl,
    (C9_render c0 "brain" false m0 0 0).2.2.2.1 rfl⟩

/-! ### C10 -/

theorem onResults_zoom_bounds (s : InterpState) (hand : Option Landmarks)
    (h1 : 0.3 ≤ s.zoom) (h2 : s.zoom ≤ 2.5) :
    0.3 ≤ (onResults s hand).1.zoom ∧ (onResults s hand).1.zoom ≤ 2.5 := by
  cases hand with
  | none => exact ⟨h1, h2⟩
  | some l =>
    cases hb : strIncludes (detectGesture l s.gestureMode).name "Pinch" with
    | false =>
      have hz : (onResults s (some l)).1.zoom = zoomDecay s.zoom := by
        simp [onResults, hb]
      rw [hz]
      unfold zoomDecay
      constructor <;> linarith
    | true =>
      have hz : (onResults s (some l)).1.zoom = zoomTarget (distR (l 4) (l 8)) := by
        simp [onResults, hb]
      rw [hz]
      unfold zoomTarget
      exact ⟨le_max_left _ _, max_le (by norm_num) (min_le_left _ _)⟩

/-- C10: starting from the initial zoom value 1, the smoothed zoom stays in
`[0.3, 2.5]` after any sequence of processed frames — Pinch frames set a
clamped value and all other updates keep the interval — so the range is a
global invariant of the integrator state. -/
theorem C10_zoom_invariant (frames : List (Option Landmarks)) :
    initState.zoom = 1 ∧
    0.3 ≤ (runFrames frames).zoom ∧ (runFrames frames).zoom ≤ 2.5 := by
  refine ⟨rfl, ?_⟩
  unfold runFrames
  have key : ∀ (s : InterpState), 0.3 ≤ s.zoom → s.zoom ≤ 2.5 →
      0.3 ≤ (frames.foldl (fun s f => (onResults s f).1) s).zoom ∧
      (frames.foldl (fun s f => (onResults s f).1) s).zoom ≤ 2.5 := by
    induction frames with
    | nil => intro s h1 h2; exact ⟨h1, h2⟩
    | cons f fs ih =>
      intro s h1 h2
      rw [List.foldl_cons]
      obtain ⟨g1, g2⟩ := onResults_zoom_bounds s f h1 h2
      exact ih _ g1 g2
  exact key initState (by rw [show initState.zoom = (1 : ℝ) from rfl]; norm_num)
    (by rw [show initState.zoom = (1 : ℝ) from rfl]; norm_num)

end Medicate
